import Mathlib

/-!
Shallow embedding of the slack-github-bridge HTTP relay (src/server.ts).

The server exposes three POST function endpoints behind an `x-api-key`
auth middleware.  Handlers are pure apart from their outbound HTTP calls;
we embed each handler as a function of its request body, the process
environment and oracles standing for the upstream HTTP APIs, returning a
trace that records which outbound requests were issued together with the
final HTTP response.

JavaScript string truthiness (`if (!x)`, `a || b`) is embedded explicitly:
an optional string is falsy exactly when it is absent or empty.

Two effectful primitives that the handlers merely pass through are taken
as function parameters rather than reimplemented: `fmt` stands for
`new Date(parseFloat(ts) * 1000).toLocaleString()` (a locale-dependent
human-readable rendering of a message timestamp) and `b64` stands for
`Buffer.from(content).toString('base64')`.  `now` stands for
`new Date().toISOString()`; the handler calls `Date` more than once but
every embedded claim is insensitive to the sub-second drift between the
calls, so a single capture-time string is threaded through.
-/

namespace SlackGithubBridge

/-- JavaScript truthiness of a `string | undefined` value: truthy exactly
when present and non-empty. -/
def jsTruthy : Option String → Bool
  | none => false
  | some s => s ≠ ""

/-- JavaScript `a || d` for an optional string `a` and a string default `d`. -/
def jsOr (a : Option String) (d : String) : String :=
  match a with
  | none => d
  | some s => if s = "" then d else s

/-- JavaScript `if (x) { use x }` on an optional string: keeps a truthy
value, drops an absent or empty one. -/
def truthyOpt (a : Option String) : Option String :=
  match a with
  | none => none
  | some s => if s = "" then none else some s

/-- Process environment variables read by the server (each
`process.env.X` is a `string | undefined`). -/
structure Env where
  mcpApiKey : Option String
  slackBotToken : Option String
  githubToken : Option String
  githubOwner : Option String
  githubRepo : Option String
  deriving DecidableEq

/-- Outcome of the auth middleware (src/server.ts lines 9-17):
`handlerRuns` models `next()` being called, `unauthorized` models the
middleware responding 401 without invoking any handler. -/
inductive GateOutcome
  | handlerRuns
  | unauthorized (status : Nat) (error : String)
  deriving DecidableEq

/-- Auth middleware: `/health` is exempt; otherwise the `x-api-key`
header must be strictly equal (`!==`) to `process.env.MCP_API_KEY`. -/
def authGate (env : Env) (path : String) (xApiKey : Option String) : GateOutcome :=
  if path = "/health" then .handlerRuns
  else if xApiKey ≠ env.mcpApiKey then .unauthorized 401 "Unauthorized"
  else .handlerRuns

/-- A message object from the Slack `conversations.history` response, with
the fields the server reads (`ts`, `user`, `username`, `text`). -/
structure SlackMessage where
  ts : String
  user : Option String
  username : Option String
  text : Option String
  deriving DecidableEq

/-- `msg.user || msg.username || 'Unknown'` (line 234). -/
def msgAuthor (m : SlackMessage) : String :=
  jsOr m.user (jsOr m.username "Unknown")

/-- `msg.text || ''` (line 235). -/
def msgText (m : SlackMessage) : String :=
  jsOr m.text ""

/-- One rendered message block (line 237):
`### user - timestamp`, blank line, text, blank line, horizontal rule.
`fmt` models the `toLocaleString` rendering of `msg.ts`. -/
def messageEntry (fmt : String → String) (m : SlackMessage) : String :=
  "### " ++ msgAuthor m ++ " - " ++ fmt m.ts ++ "\n\n" ++ msgText m ++ "\n\n---"

/-- Head of the markdown template literal (lines 226-231): title line,
`Generated:` line, `Total messages:` line, blank line, rule, blank line. -/
def mdHeader (now : String) (n : Nat) : String :=
  "# Slack Context from Channel\nGenerated: " ++ now ++ "\nTotal messages: "
    ++ toString n ++ "\n\n---\n\n"

/-- The whole markdown document (lines 226-239): header, then
`messages.reverse().map(...).join('\n\n')`, then the trailing newline of
the template literal. -/
def renderMarkdown (now : String) (fmt : String → String)
    (messages : List SlackMessage) : String :=
  mdHeader now messages.length
    ++ String.intercalate "\n\n" (messages.reverse.map (messageEntry fmt))
    ++ "\n"

/-- Query parameters of the outbound Slack `conversations.history` call. -/
structure SlackHistoryReq where
  channel : String
  limit : String
  oldest : Option String
  deriving DecidableEq

/-- JSON body of the Slack `conversations.history` response, with the
fields the server reads. -/
structure SlackHistoryResp where
  ok : Bool
  error : Option String
  messages : Option (List SlackMessage)
  has_more : Option Bool
  deriving DecidableEq

/-- Request body of `POST /functions/get_slack_messages`. -/
structure GetSlackReq where
  channel : Option String
  limit : Option Nat
  older_than : Option String
  deriving DecidableEq

/-- Response of `get_slack_messages`: either `{error}` with a status, or
the success body `{success, messages, count, has_more}`. -/
inductive GetSlackResult
  | err (status : Nat) (error : String)
  | success (messages : List SlackMessage) (count : Nat) (has_more : Bool)
  deriving DecidableEq

/-- Trace of one `get_slack_messages` call: the outbound Slack request,
if one was issued, and the response sent to the client. -/
structure GetSlackTrace where
  slackReq : Option SlackHistoryReq
  result : GetSlackResult
  deriving DecidableEq

/-- Handler of `POST /functions/get_slack_messages` (lines 62-104).
`slackApi` is the upstream oracle. -/
def getSlackMessages (env : Env) (req : GetSlackReq)
    (slackApi : SlackHistoryReq → SlackHistoryResp) : GetSlackTrace :=
  if !jsTruthy req.channel then
    { slackReq := none, result := .err 400 "channel parameter is required" }
  else if !jsTruthy env.slackBotToken then
    { slackReq := none, result := .err 500 "SLACK_BOT_TOKEN not configured" }
  else
    let out : SlackHistoryReq :=
      { channel := req.channel.getD "",
        limit := toString (req.limit.getD 100),
        oldest := truthyOpt req.older_than }
    let data := slackApi out
    if !data.ok then
      { slackReq := some out, result := .err 400 (jsOr data.error "Slack API error") }
    else
      { slackReq := some out,
        result := .success (data.messages.getD [])
          ((data.messages.map List.length).getD 0)
          (data.has_more.getD false) }

/-- Target of the GitHub contents lookup (GET); `ref` records whether the
URL carried a `?ref=` query parameter. -/
structure GithubLookupReq where
  owner : String
  repo : String
  path : String
  ref : Option String
  deriving DecidableEq

/-- Outcome of the lookup `fetch`: the call may throw (caught and
swallowed by the handler), or return a response with an `ok` flag and an
optional `sha` field in its JSON body. -/
inductive LookupOutcome
  | threw
  | resp (ok : Bool) (sha : Option String)
  deriving DecidableEq

/-- Value of the `sha` variable after the try/catch lookup block
(lines 124-142 and 251-269): set only when the lookup response was `ok`
and its body had a `sha` field. -/
def lookupSha : LookupOutcome → Option String
  | .threw => none
  | .resp ok sha => if ok then sha else none

/-- JSON body of the GitHub create-or-update PUT; `sha` is present only
when the handler executed `body.sha = sha`. -/
structure GithubWriteBody where
  message : String
  content : String
  branch : String
  sha : Option String
  deriving DecidableEq

/-- GitHub PUT response: HTTP status plus the JSON fields the server
reads (`message`, `commit.sha`, `content.html_url`). -/
structure GithubWriteResp where
  status : Nat
  message : Option String
  commitSha : Option String
  htmlUrl : Option String
  deriving DecidableEq

/-- `Response.ok` of the fetch API: status in the 2xx range. -/
def respOk (r : GithubWriteResp) : Bool :=
  200 ≤ r.status && r.status < 300

/-- Request body of `POST /functions/save_to_github`. -/
structure SaveReq where
  path : Option String
  content : Option String
  message : Option String
  branch : Option String
  deriving DecidableEq

/-- Response of `save_to_github`. -/
inductive SaveResult
  | err (status : Nat) (error : String)
  | success (commit_sha : Option String) (file_url : Option String)
  deriving DecidableEq

/-- Trace of one `save_to_github` call: the outbound lookup request and
write body, when issued, and the response sent to the client. -/
structure SaveTrace where
  lookupReq : Option GithubLookupReq
  writeBody : Option GithubWriteBody
  result : SaveResult
  deriving DecidableEq

/-- Handler of `POST /functions/save_to_github` (lines 107-182).
`lookupApi` and `writeApi` are the upstream oracles; the PUT targets the
same owner/repo/path as the lookup, so only its body is recorded. -/
def saveToGithub (env : Env) (b64 : String → String) (req : SaveReq)
    (lookupApi : GithubLookupReq → LookupOutcome)
    (writeApi : GithubWriteBody → GithubWriteResp) : SaveTrace :=
  if !jsTruthy req.path || !jsTruthy req.content then
    { lookupReq := none, writeBody := none,
      result := .err 400 "path and content parameters are required" }
  else if !jsTruthy env.githubToken || !jsTruthy env.githubOwner
      || !jsTruthy env.githubRepo then
    { lookupReq := none, writeBody := none,
      result := .err 500 "GitHub credentials not configured" }
  else
    let branch := req.branch.getD "main"
    let lreq : GithubLookupReq :=
      { owner := env.githubOwner.getD "", repo := env.githubRepo.getD "",
        path := req.path.getD "", ref := some branch }
    let sha := lookupSha (lookupApi lreq)
    let body : GithubWriteBody :=
      { message := jsOr req.message "Update from Slack context",
        content := b64 (req.content.getD ""),
        branch := branch,
        sha := truthyOpt sha }
    let resp := writeApi body
    if !respOk resp then
      { lookupReq := some lreq, writeBody := some body,
        result := .err resp.status (jsOr resp.message "GitHub API error") }
    else
      { lookupReq := some lreq, writeBody := some body,
        result := .success resp.commitSha resp.htmlUrl }

/-- Request body of `POST /functions/slack_to_github_context`. -/
structure CompositeReq where
  slack_channel : Option String
  github_path : Option String
  message_limit : Option Nat
  commit_message : Option String
  deriving DecidableEq

/-- Response of the composite endpoint; `errPartial` is the write-failure
body that additionally carries `slack_messages_retrieved`. -/
inductive CompositeResult
  | err (status : Nat) (error : String)
  | errPartial (status : Nat) (error : String) (slack_messages_retrieved : Nat)
  | success (messages_saved : Nat) (github_url : Option String)
      (commit_sha : Option String)
  deriving DecidableEq

/-- Trace of one composite call. -/
structure CompositeTrace where
  slackReq : Option SlackHistoryReq
  lookupReq : Option GithubLookupReq
  writeBody : Option GithubWriteBody
  result : CompositeResult
  deriving DecidableEq

/-- Handler of `POST /functions/slack_to_github_context` (lines 185-312). -/
def slackToGithubContext (env : Env) (now : String) (fmt b64 : String → String)
    (req : CompositeReq)
    (slackApi : SlackHistoryReq → SlackHistoryResp)
    (lookupApi : GithubLookupReq → LookupOutcome)
    (writeApi : GithubWriteBody → GithubWriteResp) : CompositeTrace :=
  if !jsTruthy req.slack_channel || !jsTruthy req.github_path then
    { slackReq := none, lookupReq := none, writeBody := none,
      result := .err 400 "slack_channel and github_path parameters are required" }
  else if !jsTruthy env.slackBotToken then
    { slackReq := none, lookupReq := none, writeBody := none,
      result := .err 500 "SLACK_BOT_TOKEN not configured" }
  else
    let sreq : SlackHistoryReq :=
      { channel := req.slack_channel.getD "",
        limit := toString (req.message_limit.getD 100),
        oldest := none }
    let slackData := slackApi sreq
    if !slackData.ok then
      { slackReq := some sreq, lookupReq := none, writeBody := none,
        result := .err 400 (jsOr slackData.error "Slack API error") }
    else
      let messages := slackData.messages.getD []
      let markdownContent := renderMarkdown now fmt messages
      if !jsTruthy env.githubToken || !jsTruthy env.githubOwner
          || !jsTruthy env.githubRepo then
        { slackReq := some sreq, lookupReq := none, writeBody := none,
          result := .err 500 "GitHub credentials not configured" }
      else
        let lreq : GithubLookupReq :=
          { owner := env.githubOwner.getD "", repo := env.githubRepo.getD "",
            path := req.github_path.getD "", ref := none }
        let sha := lookupSha (lookupApi lreq)
        let body : GithubWriteBody :=
          { message := jsOr req.commit_message ("Update Slack context - " ++ now),
            content := b64 markdownContent,
            branch := "main",
            sha := truthyOpt sha }
        let resp := writeApi body
        if !respOk resp then
          { slackReq := some sreq, lookupReq := some lreq, writeBody := some body,
            result := .errPartial resp.status
              (jsOr resp.message "GitHub API error") messages.length }
        else
          { slackReq := some sreq, lookupReq := some lreq, writeBody := some body,
            result := .success messages.length resp.htmlUrl resp.commitSha }

/-- `get_slack_messages` behind the auth middleware. -/
def serveGetSlack (env : Env) (key : Option String) (req : GetSlackReq)
    (slackApi : SlackHistoryReq → SlackHistoryResp) : GetSlackTrace :=
  match authGate env "/functions/get_slack_messages" key with
  | .unauthorized s e => { slackReq := none, result := .err s e }
  | .handlerRuns => getSlackMessages env req slackApi

/-- `save_to_github` behind the auth middleware. -/
def serveSave (env : Env) (key : Option String) (b64 : String → String)
    (req : SaveReq) (lookupApi : GithubLookupReq → LookupOutcome)
    (writeApi : GithubWriteBody → GithubWriteResp) : SaveTrace :=
  match authGate env "/functions/save_to_github" key with
  | .unauthorized s e => { lookupReq := none, writeBody := none, result := .err s e }
  | .handlerRuns => saveToGithub env b64 req lookupApi writeApi

/-- `slack_to_github_context` behind the auth middleware. -/
def serveComposite (env : Env) (key : Option String) (now : String)
    (fmt b64 : String → String) (req : CompositeReq)
    (slackApi : SlackHistoryReq → SlackHistoryResp)
    (lookupApi : GithubLookupReq → LookupOutcome)
    (writeApi : GithubWriteBody → GithubWriteResp) : CompositeTrace :=
  match authGate env "/functions/slack_to_github_context" key with
  | .unauthorized s e =>
    { slackReq := none, lookupReq := none, writeBody := none, result := .err s e }
  | .handlerRuns =>
    slackToGithubContext env now fmt b64 req slackApi lookupApi writeApi

/-- Modelled from the spec (claim C5): the rendered document, assembled
the way §4.4 step 3 describes it — a title line, a generation-timestamp
line, a total-message-count line, a horizontal rule, then for each
message (oldest first) a level-3 heading `author - timestamp` followed by
the message text and a trailing horizontal rule.  Defined for comparison
with `renderMarkdown`, which is translated from the code.  `specBlock`
is the per-message part: a level-3 heading `author - timestamp` followed
by the message text and a trailing horizontal rule. -/
def specBlock (fmt : String → String) (m : SlackMessage) : String :=
  "### " ++ msgAuthor m ++ " - " ++ fmt m.ts ++ "\n\n" ++ msgText m
    ++ "\n\n" ++ "---"

def specDocument (now : String) (fmt : String → String)
    (messages : List SlackMessage) : String :=
  let titleLine := "# Slack Context from Channel"
  let generatedLine := "Generated: " ++ now
  let countLine := "Total messages: " ++ toString messages.length
  let rule := "---"
  titleLine ++ "\n" ++ generatedLine ++ "\n" ++ countLine ++ "\n\n" ++ rule
    ++ "\n\n" ++ String.intercalate "\n\n" (messages.reverse.map (specBlock fmt))
    ++ "\n"

/-- A sample message used in concrete evaluations: timestamp `t`, a fixed
author, text mentioning the timestamp. -/
def exMsg (t : String) : SlackMessage :=
  { ts := t, user := some "alice", username := none, text := some ("m" ++ t) }

/-- A convenient constructor for environments. -/
def mkEnv (k sl gt go gr : Option String) : Env :=
  { mcpApiKey := k, slackBotToken := sl, githubToken := gt,
    githubOwner := go, githubRepo := gr }

theorem str_data_ext (a b : String) (h : a.data = b.data) : a = b :=
  congrArg String.mk h

theorem jsTruthy_eq_true_iff (o : Option String) :
    jsTruthy o = true ↔ ∃ s, o = some s ∧ s ≠ "" := by
  cases o with
  | none => simp [jsTruthy]
  | some s => simp [jsTruthy]

theorem truthyOpt_eq_some_iff (o : Option String) (t : String) :
    truthyOpt o = some t ↔ o = some t ∧ t ≠ "" := by
  constructor
  · intro h
    cases o with
    | none => simp [truthyOpt] at h
    | some s =>
      simp only [truthyOpt] at h
      by_cases hs : s = ""
      · rw [if_pos hs] at h
        cases h
      · rw [if_neg hs] at h
        cases h
        exact ⟨rfl, hs⟩
  · rintro ⟨rfl, hne⟩
    simp [truthyOpt, hne]

/-- C2: for every inbound request whose path is not `/health` and whose
`x-api-key` header is absent or differs from the configured secret, the
middleware answers 401 `Unauthorized`; on each of the three function
routes the handler never runs, so no outbound request is issued. -/
theorem C2_unauthorized_rejection (env : Env) (s : String) (key : Option String)
    (hsecret : env.mcpApiKey = some s) (hkey : key ≠ some s) :
    (∀ path, path ≠ "/health" →
      authGate env path key = .unauthorized 401 "Unauthorized")
    ∧ (∀ req slackApi, serveGetSlack env key req slackApi =
        { slackReq := none, result := .err 401 "Unauthorized" })
    ∧ (∀ b64 req lookupApi writeApi, serveSave env key b64 req lookupApi writeApi =
        { lookupReq := none, writeBody := none, result := .err 401 "Unauthorized" })
    ∧ (∀ now fmt b64 req slackApi lookupApi writeApi,
        serveComposite env key now fmt b64 req slackApi lookupApi writeApi =
        { slackReq := none, lookupReq := none, writeBody := none,
          result := .err 401 "Unauthorized" }) := by
  have hne : key ≠ env.mcpApiKey := by
    rw [hsecret]
    exact hkey
  have hgate : ∀ path, path ≠ "/health" →
      authGate env path key = .unauthorized 401 "Unauthorized" := by
    intro p hp
    unfold authGate
    rw [if_neg hp, if_pos hne]
  refine ⟨hgate, ?_, ?_, ?_⟩
  · intro req slackApi
    unfold serveGetSlack
    rw [hgate _ (by decide)]
  · intro b64 req lookupApi writeApi
    unfold serveSave
    rw [hgate _ (by decide)]
  · intro now fmt b64 req slackApi lookupApi writeApi
    unfold serveComposite
    rw [hgate _ (by decide)]

/-- Witness for C2 at a concrete secret, header and request. -/
theorem C2_unauthorized_rejection_witness :
    authGate (mkEnv (some "k") none none none none) "/functions/save_to_github" none
      = .unauthorized 401 "Unauthorized"
    ∧ serveGetSlack (mkEnv (some "k") none none none none) (some "wrong")
        { channel := some "C1", limit := none, older_than := none }
        (fun _ => { ok := true, error := none, messages := none, has_more := none })
      = { slackReq := none, result := .err 401 "Unauthorized" } :=
  ⟨(C2_unauthorized_rejection (mkEnv (some "k") none none none none) "k" none
      rfl (by decide)).1 _ (by decide),
   (C2_unauthorized_rejection (mkEnv (some "k") none none none none) "k" (some "wrong")
      rfl (by decide)).2.1 _ _⟩

/-- C9: when `MCP_API_KEY` is unset, a request carrying no `x-api-key`
header passes the auth gate on every path (undefined compares equal to
undefined), and each of the three function routes behaves exactly as its
handler does. -/
theorem C9_unset_secret_absent_header_passes (sl gt go gr : Option String) :
    (∀ path, authGate (mkEnv none sl gt go gr) path none = .handlerRuns)
    ∧ (∀ req slackApi, serveGetSlack (mkEnv none sl gt go gr) none req slackApi
        = getSlackMessages (mkEnv none sl gt go gr) req slackApi)
    ∧ (∀ b64 req lookupApi writeApi,
        serveSave (mkEnv none sl gt go gr) none b64 req lookupApi writeApi
        = saveToGithub (mkEnv none sl gt go gr) b64 req lookupApi writeApi)
    ∧ (∀ now fmt b64 req slackApi lookupApi writeApi,
        serveComposite (mkEnv none sl gt go gr) none now fmt b64 req
          slackApi lookupApi writeApi
        = slackToGithubContext (mkEnv none sl gt go gr) now fmt b64 req
            slackApi lookupApi writeApi) := by
  have hgate : ∀ path, authGate (mkEnv none sl gt go gr) path none = .handlerRuns := by
    intro p
    unfold authGate
    split
    · rfl
    · rw [if_neg]
      simp [mkEnv]
  refine ⟨hgate, ?_, ?_, ?_⟩
  · intro req slackApi
    unfold serveGetSlack
    rw [hgate]
  · intro b64 req lookupApi writeApi
    unfold serveSave
    rw [hgate]
  · intro now fmt b64 req slackApi lookupApi writeApi
    unfold serveComposite
    rw [hgate]

/-- C7: with the auth gate passed, `get_slack_messages` answers 400 and
issues no outbound call when `channel` is absent or empty, and
`save_to_github` answers 400 and issues no outbound call when `path` or
`content` is empty (or absent). -/
theorem C7_validation_rejects_before_outbound (env : Env) :
    (∀ lim ot slackApi,
      serveGetSlack env env.mcpApiKey
          { channel := none, limit := lim, older_than := ot } slackApi
        = { slackReq := none, result := .err 400 "channel parameter is required" }
      ∧ serveGetSlack env env.mcpApiKey
          { channel := some "", limit := lim, older_than := ot } slackApi
        = { slackReq := none, result := .err 400 "channel parameter is required" })
    ∧ (∀ b64 p c m br lookupApi writeApi,
      serveSave env env.mcpApiKey b64
          { path := some "", content := c, message := m, branch := br }
          lookupApi writeApi
        = { lookupReq := none, writeBody := none,
            result := .err 400 "path and content parameters are required" }
      ∧ serveSave env env.mcpApiKey b64
          { path := none, content := c, message := m, branch := br }
          lookupApi writeApi
        = { lookupReq := none, writeBody := none,
            result := .err 400 "path and content parameters are required" }
      ∧ serveSave env env.mcpApiKey b64
          { path := p, content := some "", message := m, branch := br }
          lookupApi writeApi
        = { lookupReq := none, writeBody := none,
            result := .err 400 "path and content parameters are required" }
      ∧ serveSave env env.mcpApiKey b64
          { path := p, content := none, message := m, branch := br }
          lookupApi writeApi
        = { lookupReq := none, writeBody := none,
            result := .err 400 "path and content parameters are required" }) := by
  have hgate : ∀ path, path ≠ "/health" →
      authGate env path env.mcpApiKey = .handlerRuns := by
    intro p hp
    unfold authGate
    rw [if_neg hp, if_neg]
    simp
  constructor
  · intro lim ot slackApi
    constructor <;>
      (unfold serveGetSlack; rw [hgate _ (by decide)];
       simp [getSlackMessages, jsTruthy])
  · intro b64 p c m br lookupApi writeApi
    refine ⟨?_, ?_, ?_, ?_⟩ <;>
      (unfold serveSave; rw [hgate _ (by decide)];
       simp [saveToGithub, jsTruthy])

/-- C8: on a validated request, `get_slack_messages` answers 500 before
any outbound call when `SLACK_BOT_TOKEN` is unset, and `save_to_github`
answers 500 before any outbound call when the GitHub token, owner or
repository name is unset. -/
theorem C8_missing_config_500 (k st g1 g2 g3 : Option String) (ch p c : String)
    (hch : ch ≠ "") (hp : p ≠ "") (hc : c ≠ "") :
    (∀ lim ot slackApi,
      getSlackMessages (mkEnv k none g1 g2 g3)
          { channel := some ch, limit := lim, older_than := ot } slackApi
        = { slackReq := none, result := .err 500 "SLACK_BOT_TOKEN not configured" })
    ∧ (∀ b64 m br lookupApi writeApi go gr,
      saveToGithub (mkEnv k st none go gr) b64
          { path := some p, content := some c, message := m, branch := br }
          lookupApi writeApi
        = { lookupReq := none, writeBody := none,
            result := .err 500 "GitHub credentials not configured" })
    ∧ (∀ b64 m br lookupApi writeApi gt gr,
      saveToGithub (mkEnv k st gt none gr) b64
          { path := some p, content := some c, message := m, branch := br }
          lookupApi writeApi
        = { lookupReq := none, writeBody := none,
            result := .err 500 "GitHub credentials not configured" })
    ∧ (∀ b64 m br lookupApi writeApi gt go,
      saveToGithub (mkEnv k st gt go none) b64
          { path := some p, content := some c, message := m, branch := br }
          lookupApi writeApi
        = { lookupReq := none, writeBody := none,
            result := .err 500 "GitHub credentials not configured" }) := by
  refine ⟨?_, ?_, ?_, ?_⟩
  · intro lim ot slackApi
    simp [getSlackMessages, jsTruthy, mkEnv, hch]
  · intro b64 m br lookupApi writeApi go gr
    simp [saveToGithub, jsTruthy, mkEnv, hp, hc]
  · intro b64 m br lookupApi writeApi gt gr
    simp [saveToGithub, jsTruthy, mkEnv, hp, hc]
  · intro b64 m br lookupApi writeApi gt go
    simp [saveToGithub, jsTruthy, mkEnv, hp, hc]

/-- Witness for C8 at concrete environments and request fields. -/
theorem C8_missing_config_500_witness :
    getSlackMessages (mkEnv none none none none none)
        { channel := some "C1", limit := none, older_than := none }
        (fun _ => { ok := true, error := none, messages := none, has_more := none })
      = { slackReq := none, result := .err 500 "SLACK_BOT_TOKEN not configured" }
    ∧ saveToGithub (mkEnv none (some "t") none (some "o") (some "r")) id
        { path := some "a.md", content := some "hello", message := none, branch := none }
        (fun _ => .threw)
        (fun _ => { status := 200, message := none, commitSha := none, htmlUrl := none })
      = { lookupReq := none, writeBody := none,
          result := .err 500 "GitHub credentials not configured" } :=
  ⟨(C8_missing_config_500 none none none none none "C1" "a.md" "hello"
      (by decide) (by decide) (by decide)).1 none none _,
   (C8_missing_config_500 none (some "t") none none none "C1" "a.md" "hello"
      (by decide) (by decide) (by decide)).2.1 id none none _ _ (some "o") (some "r")⟩

/-- C1 counterexample: with provider-order timestamps `[3,1,2]` the
rendered document presents the messages in order `[2,1,3]` (the exact
reverse), not `[1,2,3]` as the claim states. -/
theorem C1_example_counterexample :
    renderMarkdown "T" id [exMsg "3", exMsg "1", exMsg "2"]
      = mdHeader "T" 3 ++ String.intercalate "\n\n"
          [messageEntry id (exMsg "2"), messageEntry id (exMsg "1"),
           messageEntry id (exMsg "3")] ++ "\n"
    ∧ renderMarkdown "T" id [exMsg "3", exMsg "1", exMsg "2"]
      ≠ mdHeader "T" 3 ++ String.intercalate "\n\n"
          [messageEntry id (exMsg "1"), messageEntry id (exMsg "2"),
           messageEntry id (exMsg "3")] ++ "\n" := by
  constructor
  · rfl
  · decide

/-- C1 (amended): the rendered document lists the messages in the exact
reverse of the provider order — its joined body is the reverse of the
per-message rendering of the input sequence; in particular the input
`[3,1,2]` is presented as `[2,1,3]`. -/
theorem C1_renders_exact_reverse :
    (∀ now fmt messages, renderMarkdown now fmt messages
      = mdHeader now messages.length
        ++ String.intercalate "\n\n" ((messages.map (messageEntry fmt)).reverse)
        ++ "\n")
    ∧ ([exMsg "3", exMsg "1", exMsg "2"].reverse.map (messageEntry id)
      = [messageEntry id (exMsg "2"), messageEntry id (exMsg "1"),
         messageEntry id (exMsg "3")]) := by
  constructor
  · intro now fmt messages
    simp [renderMarkdown, List.map_reverse]
  · rfl

theorem specBlock_eq_messageEntry (fmt : String → String) (m : SlackMessage) :
    specBlock fmt m = messageEntry fmt m := by
  apply str_data_ext
  simp only [specBlock, messageEntry, String.data_append, List.append_assoc]
  rfl

/-- C5: the rendered markdown document has exactly the structure the spec
describes — title line, generation-timestamp line, total-message-count
line equal to the sequence length, horizontal rule, then per message a
level-3 heading `author - timestamp`, the text and a trailing rule — and
an absent author renders as `Unknown` while absent text renders empty. -/
theorem C5_document_format :
    (∀ now fmt messages,
      renderMarkdown now fmt messages = specDocument now fmt messages)
    ∧ (∀ ts txt,
      msgAuthor { ts := ts, user := none, username := none, text := txt } = "Unknown")
    ∧ (∀ ts u un,
      msgText { ts := ts, user := u, username := un, text := none } = "") := by
  refine ⟨?_, ?_, ?_⟩
  · intro now fmt messages
    have hb : messages.reverse.map (specBlock fmt)
        = messages.reverse.map (messageEntry fmt) := by
      simp [specBlock_eq_messageEntry]
    apply str_data_ext
    simp only [renderMarkdown, specDocument, mdHeader, hb,
      String.data_append, List.append_assoc]
    rfl
  · intro ts txt
    rfl
  · intro ts u un
    rfl

/-- C6 counterexample: a provider failure whose `error` field is the
empty string is reported as the fallback `Slack API error`, not as the
empty error string the claim's universal statement requires. -/
theorem C6_empty_error_counterexample :
    (getSlackMessages (mkEnv none (some "tok") none none none)
        { channel := some "C1", limit := none, older_than := none }
        (fun _ => { ok := false, error := some "", messages := none,
                    has_more := none })).result
      = .err 400 "Slack API error"
    ∧ GetSlackResult.err 400 "Slack API error" ≠ .err 400 "" := by
  constructor
  · rfl
  · decide

/-- C6 (amended): for every provider response with `ok:false` and a
non-empty error string `X`, `get_slack_messages` returns 400 with
`{error: X}`; when the error string is absent or empty the body is
`{error: "Slack API error"}`. -/
theorem C6_upstream_error_forwarded (env : Env) (ch : String) (hch : ch ≠ "")
    (htok : jsTruthy env.slackBotToken = true)
    (lim : Option Nat) (ot : Option String) (X : String) (hX : X ≠ "") :
    (getSlackMessages env { channel := some ch, limit := lim, older_than := ot }
        (fun _ => { ok := false, error := some X, messages := none,
                    has_more := none })).result
      = .err 400 X
    ∧ (getSlackMessages env { channel := some ch, limit := lim, older_than := ot }
        (fun _ => { ok := false, error := none, messages := none,
                    has_more := none })).result
      = .err 400 "Slack API error"
    ∧ (getSlackMessages env { channel := some ch, limit := lim, older_than := ot }
        (fun _ => { ok := false, error := some "", messages := none,
                    has_more := none })).result
      = .err 400 "Slack API error" := by
  obtain ⟨tkn, htk, htkne⟩ := (jsTruthy_eq_true_iff _).1 htok
  refine ⟨?_, ?_, ?_⟩ <;>
    simp [getSlackMessages, jsTruthy, jsOr, hch, htk, htkne, hX]

/-- Witness for C6 at a concrete channel and provider error. -/
theorem C6_upstream_error_forwarded_witness :
    (getSlackMessages (mkEnv none (some "tok") none none none)
        { channel := some "C1", limit := none, older_than := none }
        (fun _ => { ok := false, error := some "channel_not_found",
                    messages := none, has_more := none })).result
      = .err 400 "channel_not_found" :=
  (C6_upstream_error_forwarded (mkEnv none (some "tok") none none none) "C1"
    (by decide) (by decide) none none "channel_not_found" (by decide)).1

/-- C3: when the Slack fetch succeeds with `n` messages and the GitHub
write fails, the composite endpoint returns the write status (non-2xx),
the store-reported error message, and `slack_messages_retrieved = n`; no
success body is produced. -/
theorem C3_partial_failure_reports_count (env : Env) (now : String)
    (fmt b64 : String → String) (ch p : String) (hch : ch ≠ "") (hp : p ≠ "")
    (htok : jsTruthy env.slackBotToken = true)
    (hgt : jsTruthy env.githubToken = true)
    (hgo : jsTruthy env.githubOwner = true)
    (hgr : jsTruthy env.githubRepo = true)
    (lim : Option Nat) (cm : Option String) (msgs : List SlackMessage)
    (lookupApi : GithubLookupReq → LookupOutcome)
    (wr : GithubWriteResp) (hw : respOk wr = false)
    (m : String) (hm : wr.message = some m) (hmne : m ≠ "") :
    (slackToGithubContext env now fmt b64
        { slack_channel := some ch, github_path := some p,
          message_limit := lim, commit_message := cm }
        (fun _ => { ok := true, error := none, messages := some msgs,
                    has_more := none })
        lookupApi (fun _ => wr)).result
      = .errPartial wr.status m msgs.length
    ∧ (wr.status < 200 ∨ 300 ≤ wr.status)
    ∧ (∀ n u c,
      (slackToGithubContext env now fmt b64
          { slack_channel := some ch, github_path := some p,
            message_limit := lim, commit_message := cm }
          (fun _ => { ok := true, error := none, messages := some msgs,
                      has_more := none })
          lookupApi (fun _ => wr)).result ≠ .success n u c) := by
  have hres : (slackToGithubContext env now fmt b64
      { slack_channel := some ch, github_path := some p,
        message_limit := lim, commit_message := cm }
      (fun _ => { ok := true, error := none, messages := some msgs,
                  has_more := none })
      lookupApi (fun _ => wr)).result
      = .errPartial wr.status m msgs.length := by
    obtain ⟨st, hst, hstne⟩ := (jsTruthy_eq_true_iff _).1 htok
    obtain ⟨gt, hgt2, hgtne⟩ := (jsTruthy_eq_true_iff _).1 hgt
    obtain ⟨go, hgo2, hgone⟩ := (jsTruthy_eq_true_iff _).1 hgo
    obtain ⟨gr, hgr2, hgrne⟩ := (jsTruthy_eq_true_iff _).1 hgr
    simp [slackToGithubContext, jsTruthy, jsOr, hch, hp, hst, hstne,
      hgt2, hgtne, hgo2, hgone, hgr2, hgrne, hw, hm, hmne]
  refine ⟨hres, ?_, ?_⟩
  · simp only [respOk, Bool.and_eq_false_eq_eq_false_or_eq_false,
      decide_eq_false_iff_not, not_le, not_lt] at hw
    omega
  · intro n u c
    rw [hres]
    simp

/-- Witness for C3: three retrieved messages, then a 409 conflict from
the store. -/
theorem C3_partial_failure_reports_count_witness :
    (slackToGithubContext (mkEnv none (some "st") (some "gt") (some "o") (some "r"))
        "2024-01-01T00:00:00.000Z" id id
        { slack_channel := some "C1", github_path := some "ctx.md",
          message_limit := none, commit_message := none }
        (fun _ => { ok := true, error := none,
                    messages := some [exMsg "3", exMsg "2", exMsg "1"],
                    has_more := none })
        (fun _ => .threw)
        (fun _ => { status := 409, message := some "conflict", commitSha := none,
                    htmlUrl := none })).result
      = .errPartial 409 "conflict" 3 :=
  (C3_partial_failure_reports_count
    (mkEnv none (some "st") (some "gt") (some "o") (some "r"))
    "2024-01-01T00:00:00.000Z" id id "C1" "ctx.md" (by decide) (by decide)
    (by decide) (by decide) (by decide) (by decide) none none
    [exMsg "3", exMsg "2", exMsg "1"] (fun _ => .threw)
    { status := 409, message := some "conflict", commitSha := none, htmlUrl := none }
    (by decide) "conflict" rfl (by decide)).1

theorem saveToGithub_outbound (env : Env) (b64 : String → String)
    (p c : String) (cm br : Option String)
    (lookupApi : GithubLookupReq → LookupOutcome)
    (writeApi : GithubWriteBody → GithubWriteResp)
    (hp : p ≠ "") (hc : c ≠ "")
    (hgt : jsTruthy env.githubToken = true)
    (hgo : jsTruthy env.githubOwner = true)
    (hgr : jsTruthy env.githubRepo = true) :
    (saveToGithub env b64
        { path := some p, content := some c, message := cm, branch := br }
        lookupApi writeApi).lookupReq
      = some { owner := env.githubOwner.getD "", repo := env.githubRepo.getD "",
               path := p, ref := some (br.getD "main") }
    ∧ (saveToGithub env b64
        { path := some p, content := some c, message := cm, branch := br }
        lookupApi writeApi).writeBody
      = some { message := jsOr cm "Update from Slack context",
               content := b64 c, branch := br.getD "main",
               sha := truthyOpt (lookupSha (lookupApi
                 { owner := env.githubOwner.getD "",
                   repo := env.githubRepo.getD "",
                   path := p, ref := some (br.getD "main") })) } := by
  obtain ⟨gt, hgt2, hgtne⟩ := (jsTruthy_eq_true_iff _).1 hgt
  obtain ⟨go, hgo2, hgone⟩ := (jsTruthy_eq_true_iff _).1 hgo
  obtain ⟨gr, hgr2, hgrne⟩ := (jsTruthy_eq_true_iff _).1 hgr
  constructor <;>
    (simp only [saveToGithub, jsTruthy, hp, hc, hgt2, hgtne, hgo2, hgone,
       hgr2, hgrne];
     simp [hp, hc, hgtne, hgone, hgrne];
     split <;> simp [hgt2, hgo2, hgr2])

theorem composite_outbound (env : Env) (now : String) (fmt b64 : String → String)
    (ch p : String) (lim : Option Nat) (cm : Option String)
    (msgs : List SlackMessage)
    (lookupApi : GithubLookupReq → LookupOutcome)
    (writeApi : GithubWriteBody → GithubWriteResp)
    (hch : ch ≠ "") (hp : p ≠ "")
    (htok : jsTruthy env.slackBotToken = true)
    (hgt : jsTruthy env.githubToken = true)
    (hgo : jsTruthy env.githubOwner = true)
    (hgr : jsTruthy env.githubRepo = true) :
    (slackToGithubContext env now fmt b64
        { slack_channel := some ch, github_path := some p,
          message_limit := lim, commit_message := cm }
        (fun _ => { ok := true, error := none, messages := some msgs,
                    has_more := none })
        lookupApi writeApi).lookupReq
      = some { owner := env.githubOwner.getD "", repo := env.githubRepo.getD "",
               path := p, ref := none }
    ∧ (slackToGithubContext env now fmt b64
        { slack_channel := some ch, github_path := some p,
          message_limit := lim, commit_message := cm }
        (fun _ => { ok := true, error := none, messages := some msgs,
                    has_more := none })
        lookupApi writeApi).writeBody
      = some { message := jsOr cm ("Update Slack context - " ++ now),
               content := b64 (renderMarkdown now fmt msgs), branch := "main",
               sha := truthyOpt (lookupSha (lookupApi
                 { owner := env.githubOwner.getD "",
                   repo := env.githubRepo.getD "",
                   path := p, ref := none })) } := by
  obtain ⟨st, hst, hstne⟩ := (jsTruthy_eq_true_iff _).1 htok
  obtain ⟨gt, hgt2, hgtne⟩ := (jsTruthy_eq_true_iff _).1 hgt
  obtain ⟨go, hgo2, hgone⟩ := (jsTruthy_eq_true_iff _).1 hgo
  obtain ⟨gr, hgr2, hgrne⟩ := (jsTruthy_eq_true_iff _).1 hgr
  constructor <;>
    (simp only [slackToGithubContext, jsTruthy, hch, hp, hst, hstne, hgt2,
       hgtne, hgo2, hgone, hgr2, hgrne];
     simp [hch, hp, hstne, hgtne, hgone, hgrne];
     split <;> simp [hst, hgt2, hgo2, hgr2])

/-- C4: in both write paths, the create-or-update body carries `sha` with
value `t` exactly when the existence lookup succeeded and yielded the
(non-empty) token `t`; when the lookup yielded no token the `sha` field
is omitted. -/
theorem C4_sha_included_iff_found (env : Env) (b64 fmt : String → String)
    (now ch p c : String) (hch : ch ≠ "") (hp : p ≠ "") (hc : c ≠ "")
    (cm br cm2 : Option String) (lim : Option Nat) (msgs : List SlackMessage)
    (L : LookupOutcome) (writeApi : GithubWriteBody → GithubWriteResp)
    (htok : jsTruthy env.slackBotToken = true)
    (hgt : jsTruthy env.githubToken = true)
    (hgo : jsTruthy env.githubOwner = true)
    (hgr : jsTruthy env.githubRepo = true) :
    (∃ body, (saveToGithub env b64
        { path := some p, content := some c, message := cm, branch := br }
        (fun _ => L) writeApi).writeBody = some body
      ∧ (∀ t, body.sha = some t ↔ (lookupSha L = some t ∧ t ≠ ""))
      ∧ (lookupSha L = none → body.sha = none))
    ∧ (∃ body, (slackToGithubContext env now fmt b64
        { slack_channel := some ch, github_path := some p,
          message_limit := lim, commit_message := cm2 }
        (fun _ => { ok := true, error := none, messages := some msgs,
                    has_more := none })
        (fun _ => L) writeApi).writeBody = some body
      ∧ (∀ t, body.sha = some t ↔ (lookupSha L = some t ∧ t ≠ ""))
      ∧ (lookupSha L = none → body.sha = none)) := by
  constructor
  · refine ⟨_, (saveToGithub_outbound env b64 p c cm br (fun _ => L) writeApi
      hp hc hgt hgo hgr).2, ?_, ?_⟩
    · intro t
      exact truthyOpt_eq_some_iff (lookupSha L) t
    · intro h
      show truthyOpt (lookupSha L) = none
      rw [h]
      rfl
  · refine ⟨_, (composite_outbound env now fmt b64 ch p lim cm2 msgs
      (fun _ => L) writeApi hch hp htok hgt hgo hgr).2, ?_, ?_⟩
    · intro t
      exact truthyOpt_eq_some_iff (lookupSha L) t
    · intro h
      show truthyOpt (lookupSha L) = none
      rw [h]
      rfl

/-- Witness for C4: a found sha is included, an absent one omitted. -/
theorem C4_sha_included_iff_found_witness :
    (∃ body, (saveToGithub (mkEnv none (some "st") (some "gt") (some "o") (some "r")) id
        { path := some "a.md", content := some "x", message := none, branch := none }
        (fun _ => .resp true (some "abc123"))
        (fun _ => { status := 200, message := none, commitSha := none,
                    htmlUrl := none })).writeBody = some body
      ∧ (∀ t, body.sha = some t ↔
          (lookupSha (.resp true (some "abc123")) = some t ∧ t ≠ ""))
      ∧ (lookupSha (.resp true (some "abc123")) = none → body.sha = none)) :=
  (C4_sha_included_iff_found (mkEnv none (some "st") (some "gt") (some "o") (some "r"))
    id id "T" "C1" "a.md" "x" (by decide) (by decide) (by decide)
    none none none none [] (.resp true (some "abc123"))
    (fun _ => { status := 200, message := none, commitSha := none, htmlUrl := none })
    (by decide) (by decide) (by decide) (by decide)).1

/-- C10: the composite endpoint's existence lookup carries no `ref`
parameter while its write targets branch `main`; `save_to_github`'s
lookup carries `ref` equal to the requested branch. -/
theorem C10_lookup_ref_divergence (env : Env) (b64 fmt : String → String)
    (now ch p c br : String) (hch : ch ≠ "") (hp : p ≠ "") (hc : c ≠ "")
    (cm cm2 : Option String) (lim : Option Nat) (msgs : List SlackMessage)
    (lookupApi : GithubLookupReq → LookupOutcome)
    (writeApi : GithubWriteBody → GithubWriteResp)
    (htok : jsTruthy env.slackBotToken = true)
    (hgt : jsTruthy env.githubToken = true)
    (hgo : jsTruthy env.githubOwner = true)
    (hgr : jsTruthy env.githubRepo = true) :
    (∃ l, (slackToGithubContext env now fmt b64
        { slack_channel := some ch, github_path := some p,
          message_limit := lim, commit_message := cm2 }
        (fun _ => { ok := true, error := none, messages := some msgs,
                    has_more := none })
        lookupApi writeApi).lookupReq = some l ∧ l.ref = none)
    ∧ (∃ body, (slackToGithubContext env now fmt b64
        { slack_channel := some ch, github_path := some p,
          message_limit := lim, commit_message := cm2 }
        (fun _ => { ok := true, error := none, messages := some msgs,
                    has_more := none })
        lookupApi writeApi).writeBody = some body ∧ body.branch = "main")
    ∧ (∃ l, (saveToGithub env b64
        { path := some p, content := some c, message := cm, branch := some br }
        lookupApi writeApi).lookupReq = some l ∧ l.ref = some br) := by
  have hcomp := composite_outbound env now fmt b64 ch p lim cm2 msgs
    lookupApi writeApi hch hp htok hgt hgo hgr
  have hsave := saveToGithub_outbound env b64 p c cm (some br) lookupApi writeApi
    hp hc hgt hgo hgr
  refine ⟨⟨_, hcomp.1, rfl⟩, ⟨_, hcomp.2, rfl⟩, ⟨_, hsave.1, rfl⟩⟩

/-- Witness for C10 at a concrete environment and request. -/
theorem C10_lookup_ref_divergence_witness :
    (∃ l, (slackToGithubContext (mkEnv none (some "st") (some "gt") (some "o") (some "r"))
        "T" id id
        { slack_channel := some "C1", github_path := some "ctx.md",
          message_limit := none, commit_message := none }
        (fun _ => { ok := true, error := none, messages := some [],
                    has_more := none })
        (fun _ => .threw)
        (fun _ => { status := 200, message := none, commitSha := none,
                    htmlUrl := none })).lookupReq = some l ∧ l.ref = none)
    ∧ (∃ l, (saveToGithub (mkEnv none (some "st") (some "gt") (some "o") (some "r")) id
        { path := some "ctx.md", content := some "x", message := none,
          branch := some "dev" }
        (fun _ => .threw)
        (fun _ => { status := 200, message := none, commitSha := none,
                    htmlUrl := none })).lookupReq = some l ∧ l.ref = some "dev") :=
  ⟨(C10_lookup_ref_divergence (mkEnv none (some "st") (some "gt") (some "o") (some "r"))
      id id "T" "C1" "ctx.md" "x" "dev" (by decide) (by decide) (by decide)
      none none none [] (fun _ => .threw)
      (fun _ => { status := 200, message := none, commitSha := none, htmlUrl := none })
      (by decide) (by decide) (by decide) (by decide)).1,
   (C10_lookup_ref_divergence (mkEnv none (some "st") (some "gt") (some "o") (some "r"))
      id id "T" "C1" "ctx.md" "x" "dev" (by decide) (by decide) (by decide)
      none none none [] (fun _ => .threw)
      (fun _ => { status := 200, message := none, commitSha := none, htmlUrl := none })
      (by decide) (by decide) (by decide) (by decide)).2.2⟩

end SlackGithubBridge
